import Mathlib

/-!
Verification development for the multi_pyspin repository: a shallow embedding
of the camera session manager (multi_pyspin.py) and the capture controller
(multi_pyspin_gui.py), with theorems settling the specified properties.

Modelling conventions:
- Python floats are modelled exactly over the rationals; device timestamp
  latch values are integers (nanoseconds).
- Python exceptions are modelled with Option/Except result types; a raised
  exception is an error value and no state change is recorded for it.
- Calls into the vendor SDK (PySpin) are recorded as explicit trace events
  so that ordering and counting properties can be stated.
-/

namespace MultiPySpin

/-! ## Clock offset estimator (multi_pyspin.py, compute_timestamp_offset) -/

/-- Environment for the estimator: the i-th loop iteration observes
wall clock `wall i` (floating point seconds since the epoch, modelled as a
rational) and latches device value `latch i` (integer nanoseconds). -/
structure LatchEnv where
  wall : ℕ → ℚ
  latch : ℕ → ℤ

/-- SDK-visible events of camera initialization and offset estimation. -/
inductive CamEv
  | sdkInit
  | latchExec
deriving DecidableEq, Repr

/-- The estimator loop: for each iteration it latches the timestamp
(one `latchExec` event) and appends
`datetime.now().timestamp() - TimestampLatchValue()/1e9` to the list,
mirroring the loop body of compute_timestamp_offset. -/
def timestampLoop (env : LatchEnv) : ℕ → List CamEv × List ℚ
  | 0 => ([], [])
  | n + 1 =>
    let (t, l) := timestampLoop env n
    (t ++ [CamEv.latchExec], l ++ [env.wall n - (env.latch n : ℚ) / 10 ^ 9])

/-- Python statistics.median: sort the data; for odd length return the middle
element, for even length the average of the two middle elements; empty data
raises StatisticsError (modelled as `none`). -/
def pymedian (l : List ℚ) : Option ℚ :=
  let n := l.length
  let s := List.insertionSort (· ≤ ·) l
  if n = 0 then none
  else if n % 2 = 1 then s[n / 2]?
  else do
    let a ← s[n / 2 - 1]?
    let b ← s[n / 2]?
    pure ((a + b) / 2)

/-- Arithmetic mean of a list, used only to compare against the median. -/
def listMean (l : List ℚ) : ℚ := l.sum / l.length

/-- Model of compute_timestamp_offset: run the latch loop for the requested
number of iterations and return the median of the collected offsets. The
model is a pure function of the latch environment, so determinism under a
fixed sequence of latch and wall-clock pairs is inherent. -/
def compute_timestamp_offset (env : LatchEnv) (iterations : ℕ) : Option ℚ :=
  pymedian (timestampLoop env iterations).2

theorem timestampLoop_trace (env : LatchEnv) (n : ℕ) :
    (timestampLoop env n).1 = List.replicate n CamEv.latchExec := by
  induction n with
  | zero => rfl
  | succ n ih =>
    simp [timestampLoop, ih, List.replicate_succ']

theorem timestampLoop_length (env : LatchEnv) (n : ℕ) :
    (timestampLoop env n).2.length = n := by
  induction n with
  | zero => rfl
  | succ n ih => simp [timestampLoop, ih]

theorem timestampLoop_getElem (env : LatchEnv) (n i : ℕ) (hi : i < n) :
    (timestampLoop env n).2[i]? = some (env.wall i - (env.latch i : ℚ) / 10 ^ 9) := by
  induction n with
  | zero => omega
  | succ n ih =>
    rcases Nat.lt_succ_iff_lt_or_eq.mp hi with h | h
    · rw [show (timestampLoop env (n + 1)).2
          = (timestampLoop env n).2 ++ [env.wall n - (env.latch n : ℚ) / 10 ^ 9] from rfl]
      rw [List.getElem?_append_left (by rw [timestampLoop_length]; exact h)]
      exact ih h
    · subst h
      rw [show (timestampLoop env (i + 1)).2
          = (timestampLoop env i).2 ++ [env.wall i - (env.latch i : ℚ) / 10 ^ 9] from rfl]
      rw [show ((timestampLoop env i).2 ++ [env.wall i - (env.latch i : ℚ) / 10 ^ 9])[i]?
          = ((timestampLoop env i).2 ++ [env.wall i - (env.latch i : ℚ) / 10 ^ 9])[(timestampLoop env i).2.length]?
          from by rw [timestampLoop_length]]
      exact List.getElem?_concat_length _ _

theorem pymedian_isSome (l : List ℚ) (h : l ≠ []) : (pymedian l).isSome := by
  have hn : 0 < l.length := List.length_pos.mpr h
  have hs : (List.insertionSort (· ≤ ·) l).length = l.length :=
    List.length_insertionSort _ l
  unfold pymedian
  rw [if_neg (by omega)]
  by_cases hp : l.length % 2 = 1
  · rw [if_pos hp]
    rw [List.getElem?_eq_getElem (by omega)]
    rfl
  · rw [if_neg hp]
    have h2 : 2 ≤ l.length := by omega
    rw [List.getElem?_eq_getElem (l := List.insertionSort (· ≤ ·) l)
        (n := l.length / 2 - 1) (by omega),
      List.getElem?_eq_getElem (l := List.insertionSort (· ≤ ·) l)
        (n := l.length / 2) (by omega)]
    rfl

/-- Concrete estimator environment with offsets 1, 2, 3 (odd sample count). -/
def envOdd : LatchEnv := ⟨fun i => (i : ℚ) + 1, fun _ => 0⟩

/-- Concrete estimator environment where the third sample is a large outlier:
offsets 1, 2, 1000. -/
def envOut : LatchEnv := ⟨fun i => if i = 2 then 1000 else (i : ℚ) + 1, fun _ => 0⟩

/-- C1: for every camera environment and every sample count n at least 1, the
estimator performs n latch iterations, each offset is wall-clock seconds minus
the latched nanosecond value divided by ten to the ninth, and the result is
the median of the n offsets (well defined for odd and even n); on concrete
data the estimator is deterministic, differs from the mean, and a single
outlier leaves the median unchanged while it shifts the mean. -/
theorem compute_timestamp_offset_is_median (env : LatchEnv) (n : ℕ) (h : 1 ≤ n) :
    (timestampLoop env n).1.count CamEv.latchExec = n ∧
    (timestampLoop env n).2.length = n ∧
    (∀ i, i < n →
      (timestampLoop env n).2[i]? = some (env.wall i - (env.latch i : ℚ) / 10 ^ 9)) ∧
    compute_timestamp_offset env n = pymedian (timestampLoop env n).2 ∧
    (compute_timestamp_offset env n).isSome ∧
    compute_timestamp_offset envOdd 3 = some 2 ∧
    compute_timestamp_offset envOdd 4 = some (5 / 2) ∧
    compute_timestamp_offset envOut 3 = compute_timestamp_offset envOdd 3 ∧
    listMean (timestampLoop envOut 3).2 ≠ listMean (timestampLoop envOdd 3).2 ∧
    compute_timestamp_offset envOut 3 ≠ some (listMean (timestampLoop envOut 3).2) := by
  refine ⟨?_, timestampLoop_length env n, timestampLoop_getElem env n, rfl, ?_,
    by norm_num [compute_timestamp_offset, timestampLoop, pymedian, envOdd,
      List.insertionSort, List.orderedInsert],
    by norm_num [compute_timestamp_offset, timestampLoop, pymedian, envOdd,
      List.insertionSort, List.orderedInsert],
    by norm_num [compute_timestamp_offset, timestampLoop, pymedian, envOdd, envOut,
      List.insertionSort, List.orderedInsert],
    by norm_num [listMean, timestampLoop, envOut, envOdd],
    by norm_num [compute_timestamp_offset, listMean, timestampLoop, pymedian, envOut,
      List.insertionSort, List.orderedInsert]⟩
  · rw [timestampLoop_trace, List.count_replicate]
    simp
  · exact pymedian_isSome _ (by
      have := timestampLoop_length env n
      intro he
      rw [he] at this
      simp at this
      omega)

/-- Witness for C1 at the concrete odd environment with three samples. -/
theorem compute_timestamp_offset_is_median_witness :
    (timestampLoop envOdd 3).2.length = 3 ∧ compute_timestamp_offset envOdd 3 = some 2 :=
  ⟨(compute_timestamp_offset_is_median envOdd 3 (by decide)).2.1,
   (compute_timestamp_offset_is_median envOdd 3 (by decide)).2.2.2.2.2.1⟩

/-! ## Error taxonomy

Every failure in multi_pyspin.py is a RuntimeError carrying a message; the
constructors below follow the distinct message classes of the source, which
the specification maps onto its error taxonomy: `notConnected` is the
message of validate_serial, `notValid`, `notInitialized` and `notStreaming`
are the messages of the three validation guards, and `sdkOpaque` stands for
an exception raised inside a vendor SDK call, which is not produced by any
guard of the repository. -/
inductive Err
  | notConnected
  | notValid
  | notInitialized
  | notStreaming
  | sdkOpaque
deriving DecidableEq, Repr

/-- Classification used by the specification: InvalidStateError is an error
produced by a lifecycle validation guard naming the required state. -/
def Err.isInvalidState : Err → Bool
  | .notValid => true
  | .notInitialized => true
  | .notStreaming => true
  | _ => false

/-! ## Camera registry (multi_pyspin.py, SERIAL_DICT) -/

/-- Per-camera entry stored in the serial dictionary; the opaque camera
object is elided, the stored timestamp offset is kept. -/
structure CamInfo where
  timestamp_offset : ℚ
deriving DecidableEq, Repr

/-- The serial dictionary: a finite map from serial strings to camera
entries, modelled as an association list without duplicate keys mattering
(lookup takes the first binding, as a Python dict has unique keys). -/
abbrev Registry := List (String × CamInfo)

/-- Model of validate_serial: raises the reconnect RuntimeError when the
serial is not a key of the serial dictionary. -/
def validate_serial (reg : Registry) (serial : String) : Option Err :=
  if (reg.lookup serial).isSome then none else some Err.notConnected

/-- Model of handle_cam_removal: pop the serial with a default, which
removes the entry when present and does nothing (and never raises) when the
registry already lacks the serial. -/
def handle_cam_removal (reg : Registry) (serial : String) : Registry :=
  reg.filter (fun p => p.1 ≠ serial)

theorem lookup_handle_cam_removal (reg : Registry) (serial : String) :
    (handle_cam_removal reg serial).lookup serial = none := by
  induction reg with
  | nil => rfl
  | cons p t ih =>
    obtain ⟨k, v⟩ := p
    by_cases hk : k = serial
    · simpa [handle_cam_removal, List.filter_cons, hk] using ih
    · have hk2 : ¬serial = k := fun he => hk he.symm
      simp only [handle_cam_removal] at ih ⊢
      rw [List.filter_cons, if_pos (by simpa using hk)]
      rw [show List.lookup serial ((k, v) :: List.filter (fun p => decide (p.1 ≠ serial)) t)
          = List.lookup serial (List.filter (fun p => decide (p.1 ≠ serial)) t) from by
        simp [List.lookup, show (serial == k) = false from by simpa using hk2]]
      exact ih

theorem handle_cam_removal_absent (reg : Registry) (serial : String)
    (h : reg.lookup serial = none) : handle_cam_removal reg serial = reg := by
  induction reg with
  | nil => rfl
  | cons p t ih =>
    obtain ⟨k, v⟩ := p
    by_cases hk : serial = k
    · subst hk
      simp [List.lookup] at h
    · simp only [List.lookup, show (serial == k) = false from by simpa using hk] at h
      have hk2 : k ≠ serial := fun he => hk he.symm
      simp only [handle_cam_removal] at ih ⊢
      rw [List.filter_cons, if_pos (by simpa using hk2), ih h]

/-- C8: looking up a serial absent from the registry fails with
NotConnectedError; after removal of a serial the lookup for it fails the
same way for every registry; and removal of an absent serial is a no-op
that raises nothing (the removal model is total and returns the registry
unchanged). -/
theorem lookup_unknown_serial_fails (reg : Registry) (serial : String)
    (h : reg.lookup serial = none) :
    validate_serial reg serial = some Err.notConnected ∧
    (∀ (r : Registry) (s : String),
      validate_serial (handle_cam_removal r s) s = some Err.notConnected) ∧
    handle_cam_removal reg serial = reg := by
  refine ⟨?_, ?_, handle_cam_removal_absent reg serial h⟩
  · rw [validate_serial, h]
    rfl
  · intro r s
    rw [validate_serial, lookup_handle_cam_removal]
    rfl

/-- Witness for C8 on a concrete registry lacking the serial B. -/
theorem lookup_unknown_serial_fails_witness :
    validate_serial [("A", ⟨1⟩)] "B" = some Err.notConnected :=
  (lookup_unknown_serial_fails [("A", ⟨1⟩)] "B" (by decide)).1

/-! ## Camera lifecycle guards (multi_pyspin.py, validate_cam / validate_cam_init /
validate_cam_streaming and the public acquisition operations) -/

/-- Observable lifecycle state of one camera object: `invalid` is a camera
whose IsValid() is false (for example after unplugging), `found` is valid
but not initialized, `initialized` is valid and initialized but not
streaming, `streaming` is valid, initialized and streaming. -/
inductive CamState
  | invalid
  | found
  | initialized
  | streaming
deriving DecidableEq, Repr, Fintype

/-- IsValid() of the camera object. -/
def CamState.isValid : CamState → Bool
  | .invalid => false
  | _ => true

/-- IsInitialized() of the camera object. -/
def CamState.isInitialized : CamState → Bool
  | .initialized => true
  | .streaming => true
  | _ => false

/-- IsStreaming() of the camera object. -/
def CamState.isStreaming : CamState → Bool
  | .streaming => true
  | _ => false

/-- Model of validate_cam: raises when the camera is not valid. -/
def validate_cam (s : CamState) : Option Err :=
  if s.isValid then none else some Err.notValid

/-- Model of validate_cam_init: validate_cam, then raise when the camera is
not initialized. -/
def validate_cam_init (s : CamState) : Option Err :=
  match validate_cam s with
  | some e => some e
  | none => if s.isInitialized then none else some Err.notInitialized

/-- Model of validate_cam_streaming: validate_cam_init, then raise when the
camera is not streaming. -/
def validate_cam_streaming (s : CamState) : Option Err :=
  match validate_cam_init s with
  | some e => some e
  | none => if s.isStreaming then none else some Err.notStreaming

/-- Modelled from the spec: the vendor EndAcquisition call, which is outside
src. Per the vendor SDK boundary of the specification it stops streaming
when the camera streams; on a camera that is not streaming the SDK itself
raises an opaque error and the state does not change. -/
def sdkEndAcquisition (s : CamState) : CamState × Option Err :=
  match s with
  | .streaming => (.initialized, none)
  | s => (s, some Err.sdkOpaque)

/-- Model of end_acquisition: the wrapper validates the serial is present
(elided here: the camera below is taken from the registry), validates the
camera with validate_cam_init, and only then calls the vendor
EndAcquisition; a validation failure raises before any SDK call, so the
state is unchanged. Note the guard used by the source is the initialized
check, not the streaming check. -/
def end_acquisition (s : CamState) : CamState × Option Err :=
  match validate_cam_init s with
  | some e => (s, some e)
  | none => sdkEndAcquisition s

/-- Guard used by start_acquisition in the source (validate via
_get_and_validate_init_cam). -/
def start_acquisition_guard : CamState → Option Err := validate_cam_init

/-- Guard used by get_image in the source (validate via
_get_and_validate_streaming_cam). -/
def get_image_guard : CamState → Option Err := validate_cam_streaming

/-- Guard used by init and deinit in the source (validate via
_get_and_validate_cam: only validity is checked). -/
def init_guard : CamState → Option Err := validate_cam

/-- C5 counterexample: on a camera that is Initialized but not Streaming,
end_acquisition does not fail with an InvalidStateError of the guards; the
validate_cam_init guard passes and the failure is the opaque SDK error, so
the claim that end_acquisition fails with InvalidStateError whenever the
camera is not Streaming is false at this concrete state. -/
theorem end_acquisition_initialized_no_invalid_state :
    end_acquisition CamState.initialized = (CamState.initialized, some Err.sdkOpaque) ∧
    Err.isInvalidState Err.sdkOpaque = false ∧
    validate_cam_init CamState.initialized = none ∧
    CamState.initialized ≠ CamState.streaming ∧
    start_acquisition_guard CamState.streaming = none := by
  decide

/-- C5 amended: end_acquisition transitions Streaming to Initialized; its
guard is validate_cam_init, so it raises InvalidStateError exactly when the
camera is invalid or not initialized, while on an Initialized camera the
guard passes and the failure is the opaque SDK error; every failing run of
end_acquisition leaves the state unchanged, and the three validation guards
check exactly validity, validity plus initialization, and validity plus
initialization plus streaming. -/
theorem end_acquisition_guarded :
    end_acquisition CamState.streaming = (CamState.initialized, none) ∧
    end_acquisition CamState.found = (CamState.found, some Err.notInitialized) ∧
    end_acquisition CamState.invalid = (CamState.invalid, some Err.notValid) ∧
    end_acquisition CamState.initialized = (CamState.initialized, some Err.sdkOpaque) ∧
    (∀ s : CamState, (end_acquisition s).2 = none ∨ (end_acquisition s).1 = s) ∧
    (∀ s : CamState, validate_cam s = none ↔ s.isValid = true) ∧
    (∀ s : CamState,
      validate_cam_init s = none ↔ (s.isValid = true ∧ s.isInitialized = true)) ∧
    (∀ s : CamState, validate_cam_streaming s = none ↔
      (s.isValid = true ∧ s.isInitialized = true ∧ s.isStreaming = true)) ∧
    (∀ s : CamState, (validate_cam_init s).isSome = false ∨
      ((end_acquisition s).1 = s ∧ (end_acquisition s).2 = validate_cam_init s)) := by
  decide

/-! ## Arrival handler and the public init operation (multi_pyspin.py,
handle_cam_arrival and init) -/

/-- Number of estimator iterations fixed by the module. -/
def TIMESTAMP_OFFSET_ITERATIONS : ℕ := 20

/-- Model of handle_cam_arrival: obtain the camera, call the device Init
(one `sdkInit` event), then run the estimator (its latch events) and store
the serial with the computed offset in the serial dictionary; `none` is the
propagated exception of an estimator that computed no median, which never
happens at the fixed iteration count. -/
def handle_cam_arrival (env : LatchEnv) (reg : Registry) (serial : String) :
    Option (Registry × List CamEv) :=
  match compute_timestamp_offset env TIMESTAMP_OFFSET_ITERATIONS with
  | none => none
  | some off =>
    some ((serial, ⟨off⟩) :: handle_cam_removal reg serial,
          CamEv.sdkInit :: (timestampLoop env TIMESTAMP_OFFSET_ITERATIONS).1)

/-- Model of the public init: validate the serial (the validity check of
the camera object itself is elided: the camera is taken as valid), then
call the device Init. It issues no latch command and does not touch the
stored timestamp offset. -/
def initOp (reg : Registry) (serial : String) : Registry × List CamEv × Option Err :=
  match validate_serial reg serial with
  | some e => (reg, [], some e)
  | none => (reg, [CamEv.sdkInit], none)

/-- Concrete registry holding camera A with stored offset 7. -/
def regA : Registry := [("A", ⟨7⟩)]

/-- Concrete estimator environment in which every sample gives offset 5. -/
def envFive : LatchEnv := ⟨fun _ => 5, fun _ => 0⟩

set_option maxHeartbeats 1600000

/-- C6 counterexample: the public init operation on a registered camera
performs only the device Init: it runs zero latch iterations and leaves the
stored offset at its arrival-time value 7, although the estimator over the
current environment would give 5; so the claim that initialize immediately
runs the estimator and stores the result is false at this concrete input. -/
theorem init_does_not_refresh_offset :
    initOp regA "A" = (regA, [CamEv.sdkInit], none) ∧
    (initOp regA "A").2.1.count CamEv.latchExec = 0 ∧
    compute_timestamp_offset envFive TIMESTAMP_OFFSET_ITERATIONS = some 5 ∧
    (initOp regA "A").1.lookup "A" = some ⟨7⟩ ∧
    (7 : ℚ) ≠ 5 := by
  refine ⟨by decide, by decide, ?_, by decide, by norm_num⟩
  norm_num [compute_timestamp_offset, TIMESTAMP_OFFSET_ITERATIONS, timestampLoop,
    pymedian, envFive, List.insertionSort, List.orderedInsert]

set_option maxHeartbeats 200000

/-- C6 amended: it is the arrival handler that invokes the device init and
then immediately the estimator, storing the resulting offset, so after
arrival the camera is registered with a defined clock offset; the public
init operation only reissues the device init and leaves both the registry
and the stored offset unchanged. -/
theorem arrival_initializes_and_stores_offset
    (env : LatchEnv) (reg : Registry) (serial : String) :
    ∃ reg2 tr off,
      handle_cam_arrival env reg serial = some (reg2, tr) ∧
      compute_timestamp_offset env TIMESTAMP_OFFSET_ITERATIONS = some off ∧
      reg2.lookup serial = some ⟨off⟩ ∧
      tr.head? = some CamEv.sdkInit ∧
      tr.count CamEv.latchExec = TIMESTAMP_OFFSET_ITERATIONS ∧
      initOp reg2 serial = (reg2, [CamEv.sdkInit], none) := by
  have hsome : (compute_timestamp_offset env TIMESTAMP_OFFSET_ITERATIONS).isSome := by
    apply pymedian_isSome
    intro he
    have := timestampLoop_length env TIMESTAMP_OFFSET_ITERATIONS
    rw [he] at this
    simp [TIMESTAMP_OFFSET_ITERATIONS] at this
  obtain ⟨off, hoff⟩ := Option.isSome_iff_exists.mp hsome
  refine ⟨(serial, ⟨off⟩) :: handle_cam_removal reg serial,
    CamEv.sdkInit :: (timestampLoop env TIMESTAMP_OFFSET_ITERATIONS).1, off, ?_, hoff,
    ?_, rfl, ?_, ?_⟩
  · unfold handle_cam_arrival
    rw [hoff]
  · simp [List.lookup]
  · rw [List.count_cons, timestampLoop_trace, List.count_replicate]
    simp
  · rw [initOp, validate_serial]
    simp [List.lookup]

/-! ## Declarative configuration applier (multi_pyspin.py, the init command
loop of the setup function) -/

/-- Scalar value loaded from the yaml document; yaml null loads as the
Python None value. -/
inductive YamlVal
  | null
  | num (q : ℚ)
  | str (s : String)
  | boolean (b : Bool)
deriving DecidableEq, Repr

/-- Payload of one top-level key inside an init entry: either a scalar (for
example null, as in a bare Execute entry) or a mapping together with
whether it has a value key and, when it does, the loaded value. -/
inductive YamlPayload
  | scalar (v : YamlVal)
  | mapping (hasValueKey : Bool) (value : YamlVal)
deriving DecidableEq, Repr

/-- One element of the init command list: either not a dict (skipped by the
source loop) or a dict given by its items. -/
inductive YamlEntry
  | notMapping (v : YamlVal)
  | mapping (items : List (String × YamlPayload))
deriving DecidableEq, Repr

/-- One recorded call into the device command gateway, with the arguments
that the setup loop passes to node_cmd. -/
structure GatewayCall where
  cam_node_str : String
  cam_method_str : String
  pyspin_mode_str : Option String
  cam_node_arg : Option YamlVal
deriving DecidableEq, Repr

/-- The node argument extracted from a payload: present exactly when the
payload is a mapping that has a value key whose loaded value is not the
Python None. -/
def camNodeArg : YamlPayload → Option YamlVal
  | .mapping true v => if v = .null then none else some v
  | _ => none

/-- Gateway call issued for the items of one dict entry: a single-key entry
issues one call, SetValue when a non-None argument was extracted and
Execute otherwise, always with required access mode RW; an entry with zero
or several keys raises the one-node-per-tick RuntimeError. -/
def setupEntryCall (items : List (String × YamlPayload)) : Except String GatewayCall :=
  match items with
  | [(k, p)] =>
    let arg := camNodeArg p
    let m := if arg.isSome then "SetValue" else "Execute"
    .ok ⟨k, m, some "RW", arg⟩
  | _ => .error "Only one camera node per yaml tick is supported."

/-- The full init loop: iterate the entries in order, skip entries that are
not dicts, record the gateway call for each dict entry, and abort on the
first malformed entry. -/
def setupCalls : List YamlEntry → Except String (List GatewayCall)
  | [] => .ok []
  | .notMapping _ :: rest => setupCalls rest
  | .mapping items :: rest =>
    match setupEntryCall items with
    | .error e => .error e
    | .ok c =>
      match setupCalls rest with
      | .error e => .error e
      | .ok cs => .ok (c :: cs)

/-- C2 counterexample: an Execute entry (no value key, the usual bare-key
form loading as null) is issued with required access mode RW, not WO as the
claim states; moreover an entry that does carry a value key whose value is
null is issued as Execute rather than SetValue. -/
theorem setup_execute_uses_rw :
    setupCalls [.mapping [("UserSetLoad", .scalar .null)]]
      = .ok [⟨"UserSetLoad", "Execute", some "RW", none⟩] ∧
    some "RW" ≠ some "WO" ∧
    setupCalls [.mapping [("Foo", .mapping true .null)]]
      = .ok [⟨"Foo", "Execute", some "RW", none⟩] := by
  refine ⟨rfl, by decide, rfl⟩

/-- C2 amended: an entry whose value key holds a non-null value issues
exactly one SetValue with required access mode RW, and an entry without a
value key (or whose value is null) issues exactly one Execute, also with
required access mode RW. -/
theorem setup_entry_commands (k : String) (v w : YamlVal) (hv : v ≠ .null) :
    setupEntryCall [(k, .mapping true v)] = .ok ⟨k, "SetValue", some "RW", some v⟩ ∧
    setupCalls [.mapping [(k, .mapping true v)]]
      = .ok [⟨k, "SetValue", some "RW", some v⟩] ∧
    setupEntryCall [(k, .mapping false w)] = .ok ⟨k, "Execute", some "RW", none⟩ ∧
    setupEntryCall [(k, .scalar w)] = .ok ⟨k, "Execute", some "RW", none⟩ := by
  have harg : camNodeArg (.mapping true v) = some v := by
    rw [camNodeArg, if_neg hv]
  have h1 : setupEntryCall [(k, .mapping true v)]
      = .ok ⟨k, "SetValue", some "RW", some v⟩ := by
    rw [setupEntryCall]
    simp [harg]
  refine ⟨h1, ?_, ?_, ?_⟩
  · rw [setupCalls, h1]
    rfl
  · rw [setupEntryCall]
    simp [camNodeArg]
  · rw [setupEntryCall]
    simp [camNodeArg]

/-- Witness for C2 at a concrete enum-valued SetValue entry. -/
theorem setup_entry_commands_witness :
    setupEntryCall [("GainAuto", .mapping true (.str "PySpin.GainAuto_Off"))]
      = .ok ⟨"GainAuto", "SetValue", some "RW", some (.str "PySpin.GainAuto_Off")⟩ :=
  (setup_entry_commands "GainAuto" (.str "PySpin.GainAuto_Off") .null (by decide)).1

/-! ## Device command gateway (multi_pyspin.py, node_cmd) -/

/-- Feature tree of one camera: each node has an access mode string (the
name of the PySpin access mode constant it reports) and named child
attributes, mirroring attribute access on the camera object. -/
inductive FeatureTree
  | node (access : String) (children : List (String × FeatureTree))

/-- Access mode reported by a node. -/
def FeatureTree.access : FeatureTree → String
  | .node a _ => a

/-- Attribute access on a node, which is `getattr` in the source; a missing
name is an AttributeError. -/
def FeatureTree.child : FeatureTree → String → Option FeatureTree
  | .node _ cs, s => cs.lookup s

/-- Walk of the dot-split feature path by repeated attribute access. -/
def resolvePath : FeatureTree → List String → Option FeatureTree
  | t, [] => some t
  | t, s :: rest =>
    match t.child s with
    | none => none
    | some c => resolvePath c rest

/-- Camera object seen by the gateway: its unique identifier and its
feature tree. -/
structure Camera where
  uniqueId : String
  features : FeatureTree

/-- Failures of node_cmd, one constructor per distinct raise site of the
source: attribute resolution failure (unknown feature path, or unknown name
in the vendor enum namespace), the access mode check RuntimeError, and the
RuntimeError for a nested symbolic argument. -/
inductive NodeErr
  | attributeError (name : String)
  | accessModeError (node mode : String)
  | nestedArgError
deriving DecidableEq, Repr

/-- Observable actions of one node_cmd call: the printed executing line and
the final method invocation on the resolved node. -/
inductive TraceEv
  | printedExec (serial node method : String) (arg : Option YamlVal)
  | invoked (node method : String) (arg : Option YamlVal)
deriving DecidableEq, Repr

/-- Predicate selecting printed lines in a gateway trace. -/
def TraceEv.isPrinted : TraceEv → Bool
  | .printedExec _ _ _ _ => true
  | _ => false

/-- Predicate selecting method invocations in a gateway trace. -/
def TraceEv.isInvoked : TraceEv → Bool
  | .invoked _ _ _ => true
  | _ => false

/-- Helper for the split of a string into parts at a separator character,
on the underlying character list. -/
def splitChars (sep : Char) : List Char → List (List Char)
  | [] => [[]]
  | c :: cs =>
    let r := splitChars sep cs
    if c = sep then [] :: r
    else
      match r with
      | [] => [[c]]
      | h :: t => (c :: h) :: t

/-- Model of the Python str.split with a one-character separator, as used
by node_cmd on the dotted feature path and on symbolic arguments: the empty
string gives one empty part, and a string without the separator gives
itself as the only part. -/
def pySplit (sep : Char) (s : String) : List String :=
  (splitChars sep s.toList).map (fun l => ⟨l⟩)

/-- Argument formatting step of node_cmd: a string argument whose first
dot-component is PySpin is resolved against the vendor enum namespace when
it has exactly two components, raises the nested-attribute RuntimeError
otherwise, and every other argument is passed through unchanged. -/
def resolveArg (enumNS : String → Option YamlVal) :
    Option YamlVal → Except NodeErr (Option YamlVal)
  | some (.str s) =>
    let parts := pySplit '.' s
    if parts.headD "" = "PySpin" then
      if parts.length = 2 then
        match enumNS (parts.getD 1 "") with
        | some v => .ok (some v)
        | none => .error (.attributeError s)
      else .error .nestedArgError
    else .ok (some (.str s))
  | a => .ok a

/-- Model of node_cmd. In source order: print the executing line, resolve
the dot-separated feature path, perform the optional access mode check,
format the argument, and finally invoke the method on the node. The value
returned by the invoked SDK method is outside the model, so a successful
run returns the formatted argument it invoked the method with. Access
modes are compared by the name of the PySpin constant. -/
def node_cmd (cam : Camera) (enumNS : String → Option YamlVal)
    (cam_node_str cam_method_str : String) (pyspin_mode_str : Option String)
    (cam_node_arg : Option YamlVal) :
    List TraceEv × Except NodeErr (Option YamlVal) :=
  let pr := TraceEv.printedExec cam.uniqueId cam_node_str cam_method_str cam_node_arg
  match resolvePath cam.features (pySplit '.' cam_node_str) with
  | none => ([pr], .error (.attributeError cam_node_str))
  | some nd =>
    let modeFails := match pyspin_mode_str with
      | some m => nd.access != m
      | none => false
    if modeFails then
      ([pr], .error (.accessModeError cam_node_str (pyspin_mode_str.getD "")))
    else
      match resolveArg enumNS cam_node_arg with
      | .error e => ([pr], .error e)
      | .ok arg2 =>
        ([pr, TraceEv.invoked cam_node_str cam_method_str arg2], .ok arg2)

/-- C10: every node_cmd call prints the executing line first and exactly
once, whatever happens afterwards: on any failure (unknown feature path,
access mode mismatch, unsupported nested symbolic argument) the trace is
the printed line alone and in particular the feature method was never
invoked, and on success the trace is the printed line followed by exactly
the one invocation. -/
theorem node_cmd_prints_before_checks (cam : Camera) (enumNS : String → Option YamlVal)
    (node method : String) (ms : Option String) (arg : Option YamlVal) :
    (node_cmd cam enumNS node method ms arg).1.head?
      = some (TraceEv.printedExec cam.uniqueId node method arg) ∧
    ((node_cmd cam enumNS node method ms arg).1.countP TraceEv.isPrinted = 1) ∧
    (∀ e, (node_cmd cam enumNS node method ms arg).2 = .error e →
      (node_cmd cam enumNS node method ms arg).1
        = [TraceEv.printedExec cam.uniqueId node method arg]) ∧
    (∀ a2, (node_cmd cam enumNS node method ms arg).2 = .ok a2 →
      (node_cmd cam enumNS node method ms arg).1
        = [TraceEv.printedExec cam.uniqueId node method arg,
           TraceEv.invoked node method a2]) ∧
    ((node_cmd cam enumNS node method ms arg).1.countP TraceEv.isInvoked
      = if (node_cmd cam enumNS node method ms arg).2.isOk then 1 else 0) := by
  unfold node_cmd
  cases hr : resolvePath cam.features (pySplit '.' node) with
  | none =>
    simp [TraceEv.isPrinted, TraceEv.isInvoked, List.countP_cons, Except.isOk,
      Except.toBool]
  | some nd =>
    cases hm : (match ms with | some m => nd.access != m | none => false) with
    | true =>
      simp only [hm, if_true]
      simp [TraceEv.isPrinted, TraceEv.isInvoked, List.countP_cons, Except.isOk,
        Except.toBool]
    | false =>
      simp only [hm, if_false]
      cases ha : resolveArg enumNS arg with
      | error e =>
        simp [TraceEv.isPrinted, TraceEv.isInvoked, List.countP_cons, Except.isOk,
          Except.toBool]
      | ok a2 =>
        simp [TraceEv.isPrinted, TraceEv.isInvoked, List.countP_cons, Except.isOk,
          Except.toBool]

/-- Witness for C10: a write-only node rejected by the access mode check
still prints its line exactly once and never invokes the method. -/
theorem node_cmd_prints_before_checks_witness :
    (node_cmd ⟨"18060270", .node "RO" [("Gain", .node "WO" [])]⟩ (fun _ => none)
        "Gain" "SetValue" (some "RW") (some (.num 10))).1
      = [TraceEv.printedExec "18060270" "Gain" "SetValue" (some (.num 10))] :=
  (node_cmd_prints_before_checks ⟨"18060270", .node "RO" [("Gain", .node "WO" [])]⟩
      (fun _ => none) "Gain" "SetValue" (some "RW") (some (.num 10))).2.2.1
    (.accessModeError "Gain" "RW") (by rfl)

/-! ## Synchronized multi-capture controller (multi_pyspin_gui.py,
save_images and save_multi_image)

The model mirrors the image loop of save_images: per image, start
acquisition on every camera of the set in order, then inside try/finally
run the burst loop, and in the finally end acquisition on every camera;
an exception escaping the burst loop is returned after the end events and
aborts the remaining images. Cameras of the set are registered, valid and
initialized for the whole run (registry mutation racing with capture is
out of scope), so start and end acquisition succeed. One grab is the
GetNextImage call with the image timeout: it yields a complete image with
a frame id, an incomplete image (the empty image dict), or raises the SDK
timeout error. -/

/-- Outcome of one GetNextImage call, indexed by image, burst and camera. -/
inductive GrabOutcome
  | complete (fid : ℕ)
  | incomplete
  | timeout
deriving DecidableEq, Repr

/-- Device behaviour driving one capture run. -/
structure CaptureEnv where
  grab : ℕ → ℕ → ℕ → GrabOutcome

/-- Exceptions escaping the burst loop: the SDK timeout error of a grab,
and the Python KeyError of indexing an empty image dict. -/
inductive Exc
  | timeoutE (image burst cam : ℕ)
  | keyError (image burst cam : ℕ)
deriving DecidableEq, Repr

/-- Observable events of a capture run. -/
inductive Ev
  | startAcq (cam : ℕ)
  | grabOk (image burst cam fid : ℕ)
  | grabIncomplete (image burst cam : ℕ)
  | warnDesync (image burst : ℕ)
  | save (image burst cam : ℕ)
  | release (image burst cam : ℕ)
  | endAcq (cam : ℕ)
deriving DecidableEq, Repr

/-- Grab phase of one burst slot: fill the image dict of each camera of the
set in order; a timeout raises immediately (later cameras are not grabbed),
a complete image stores its frame id, an incomplete image stores the empty
dict (`none`). -/
def grabPhase (env : CaptureEnv) (img burst : ℕ) :
    List ℕ → List Ev × Except Exc (List (ℕ × Option ℕ))
  | [] => ([], .ok [])
  | c :: cs =>
    match env.grab img burst c with
    | .timeout => ([], .error (.timeoutE img burst c))
    | .complete fid =>
      let (t, r) := grabPhase env img burst cs
      (Ev.grabOk img burst c fid :: t,
       match r with
       | .error e => .error e
       | .ok ds => .ok ((c, some fid) :: ds))
    | .incomplete =>
      let (t, r) := grabPhase env img burst cs
      (Ev.grabIncomplete img burst c :: t,
       match r with
       | .error e => .error e
       | .ok ds => .ok ((c, none) :: ds))

/-- The frameids list comprehension: index every image dict at frameid in
camera order; indexing an empty dict raises KeyError. -/
def frameIds (img burst : ℕ) : List (ℕ × Option ℕ) → Except Exc (List ℕ)
  | [] => .ok []
  | (_, some fid) :: rest =>
    match frameIds img burst rest with
    | .error e => .error e
    | .ok fs => .ok (fid :: fs)
  | (c, none) :: _ => .error (.keyError img burst c)

/-- Save loop of one slot: a save event for every camera whose image dict
is nonempty. -/
def savePhase (img burst : ℕ) : List (ℕ × Option ℕ) → List Ev
  | [] => []
  | (c, some _) :: rest => Ev.save img burst c :: savePhase img burst rest
  | (_, none) :: rest => savePhase img burst rest

/-- Release loop of one slot: release every image dict of the set together;
indexing an empty dict raises KeyError. -/
def releasePhase (img burst : ℕ) : List (ℕ × Option ℕ) → List Ev × Except Exc Unit
  | [] => ([], .ok ())
  | (c, some _) :: rest =>
    let (t, r) := releasePhase img burst rest
    (Ev.release img burst c :: t, r)
  | (c, none) :: _ => ([], .error (.keyError img burst c))

/-- The burst loop of one image: for each burst index, grab from every
camera, extract the frame ids, compare every frame id against the burst
index (warn and break out of the loop on mismatch, without releasing),
save, then release all dicts together; an exception anywhere routes out of
the loop carrying the events so far. -/
def burstLoop (env : CaptureEnv) (img : ℕ) (cams : List ℕ) :
    ℕ → ℕ → List Ev × Option Exc
  | 0, _ => ([], none)
  | n + 1, b =>
    let (t1, r) := grabPhase env img b cams
    match r with
    | .error e => (t1, some e)
    | .ok dicts =>
      match frameIds img b dicts with
      | .error e => (t1, some e)
      | .ok fids =>
        if fids.count b ≠ fids.length then
          (t1 ++ [Ev.warnDesync img b], none)
        else
          let saves := savePhase img b dicts
          let (t2, rr) := releasePhase img b dicts
          match rr with
          | .error e => (t1 ++ saves ++ t2, some e)
          | .ok _ =>
            let (t3, r3) := burstLoop env img cams n (b + 1)
            (t1 ++ saves ++ t2 ++ t3, r3)

/-- One image iteration of save_images: start acquisition on every camera
of the set in order, run the burst loop inside the try, and in the finally
end acquisition on every camera of the set; an exception of the burst loop
is surfaced only after the end events. -/
def runImage (env : CaptureEnv) (cams : List ℕ) (img bursts : ℕ) :
    List Ev × Option Exc :=
  let (t, e) := burstLoop env img cams bursts 0
  (cams.map Ev.startAcq ++ t ++ cams.map Ev.endAcq, e)

/-- The image loop of save_images: run the images in order; an exception
escaping one image iteration propagates and aborts the remaining images. -/
def runSave (env : CaptureEnv) (cams : List ℕ) (bursts : ℕ) :
    ℕ → ℕ → List Ev × Option Exc
  | 0, _ => ([], none)
  | n + 1, i =>
    let (t, e) := runImage env cams i bursts
    match e with
    | some ex => (t, some ex)
    | none =>
      let (t2, e2) := runSave env cams bursts n (i + 1)
      (t ++ t2, e2)

/-- Python range of the camera indices passed by save_multi_image, which is
list(range(1, numCams)) with the primary camera index 0 appended last. -/
def pyRange (a b : ℕ) : List ℕ := List.range' a (b - a)

/-- The camera order used by the multi-camera save operation. -/
def multiImageCamOrder (numCams : ℕ) : List ℕ := pyRange 1 numCams ++ [0]

/-- Predicate selecting release events. -/
def Ev.isRelease : Ev → Bool
  | .release _ _ _ => true
  | _ => false

/-- Predicate selecting successful grab events. -/
def Ev.isGrabOk : Ev → Bool
  | .grabOk _ _ _ _ => true
  | _ => false

/-- Predicate selecting grab events belonging to a given image index. -/
def Ev.isGrabOkFor (img : ℕ) : Ev → Bool
  | .grabOk i _ _ _ => i = img
  | _ => false

/-- Predicate selecting incomplete-grab events. -/
def Ev.isGrabIncomplete : Ev → Bool
  | .grabIncomplete _ _ _ => true
  | _ => false

/-- Device behaviour where camera 0 reports frame id 0 and camera 1 reports
frame id 1 in every slot: the first burst slot is desynchronized. -/
def envDesync : CaptureEnv := ⟨fun _ _ c => if c = 0 then .complete 0 else .complete 1⟩

/-- Device behaviour where camera 1 times out in the single burst of the
second image (index 1) and every other grab completes with the expected
frame id. -/
def envTimeout : CaptureEnv :=
  ⟨fun i b c => if i = 1 ∧ c = 1 then .timeout else .complete b⟩

/-- C3 counterexample: in the desynchronized slot the controller grabs two
buffers, logs the warning and aborts the remaining burst, but releases no
buffer at all, contradicting the claim that every buffer already grabbed
for the slot is still released; acquisition is still ended on both cameras
and no exception escapes. -/
theorem desync_does_not_release_buffers :
    runSave envDesync [0, 1] 2 1 0 =
      ([.startAcq 0, .startAcq 1, .grabOk 0 0 0 0, .grabOk 0 0 1 1,
        .warnDesync 0 0, .endAcq 0, .endAcq 1], none) ∧
    (runSave envDesync [0, 1] 2 1 0).1.countP Ev.isGrabOk = 2 ∧
    (runSave envDesync [0, 1] 2 1 0).1.countP Ev.isRelease = 0 := by
  refine ⟨by decide, by decide, by decide⟩

/-- C3 amended: when the frame ids of a burst slot are not all equal to the
slot index, the controller logs the desync warning and aborts the remaining
bursts of the current image without attempting recovery, acquisition is
still ended on every camera and no exception escapes (so later images still
run), but the image buffers already grabbed for the slot are not released.
Stated for every positive burst count over the desynchronized device
behaviour: the outcome does not depend on how many bursts were requested. -/
theorem desync_aborts_bursts (B : ℕ) (h : 1 ≤ B) :
    runImage envDesync [0, 1] 0 B =
      ([.startAcq 0, .startAcq 1, .grabOk 0 0 0 0, .grabOk 0 0 1 1,
        .warnDesync 0 0, .endAcq 0, .endAcq 1], none) ∧
    (runImage envDesync [0, 1] 0 B).1.countP Ev.isRelease = 0 := by
  obtain ⟨b, rfl⟩ : ∃ b, B = b + 1 := ⟨B - 1, by omega⟩
  have h1 : runImage envDesync [0, 1] 0 (b + 1) =
      ([.startAcq 0, .startAcq 1, .grabOk 0 0 0 0, .grabOk 0 0 1 1,
        .warnDesync 0 0, .endAcq 0, .endAcq 1], none) := rfl
  exact ⟨h1, by rw [h1]; decide⟩

/-- Witness for C3 at burst count 2. -/
theorem desync_aborts_bursts_witness :
    runImage envDesync [0, 1] 0 2 =
      ([.startAcq 0, .startAcq 1, .grabOk 0 0 0 0, .grabOk 0 0 1 1,
        .warnDesync 0 0, .endAcq 0, .endAcq 1], none) :=
  (desync_aborts_bursts 2 (by decide)).1

/-- C4 counterexample: on the spec scenario (burst count 1, three images,
cameras 0 and 1, camera 1 timing out in the single burst of image 1) the
timeout raises: the run ends with the propagated timeout exception, no
empty FrameResult is recorded for camera 1, and no grab of image 2 ever
happens, contradicting the claim that the remaining images proceed and
image 3 yields two successful FrameResults. -/
theorem timeout_aborts_capture :
    (runSave envTimeout [0, 1] 1 3 0).2 = some (Exc.timeoutE 1 0 1) ∧
    (runSave envTimeout [0, 1] 1 3 0).1.countP (Ev.isGrabOkFor 2) = 0 ∧
    (runSave envTimeout [0, 1] 1 3 0).1.countP Ev.isGrabIncomplete = 0 := by
  refine ⟨by decide, by decide, by decide⟩

/-- C4 amended: a grab failing with timeout raises the SDK timeout error;
it is not retried and is not reported as an empty FrameResult; acquisition
is still cleanly ended on every camera for that image, after which the
exception propagates and aborts the capture of the remaining images. On the
spec scenario: image 0 yields two successful grabs (saved and released),
image 1 ends acquisition on both cameras right after the timeout of camera
1, and image 2 is never started. -/
theorem timeout_not_retried_acquisition_ended :
    runSave envTimeout [0, 1] 1 3 0 =
      ([.startAcq 0, .startAcq 1,
        .grabOk 0 0 0 0, .grabOk 0 0 1 0,
        .save 0 0 0, .save 0 0 1,
        .release 0 0 0, .release 0 0 1,
        .endAcq 0, .endAcq 1,
        .startAcq 0, .startAcq 1,
        .grabOk 1 0 0 0,
        .endAcq 0, .endAcq 1],
       some (Exc.timeoutE 1 0 1)) := by
  decide

/-- C7: in every image iteration, over every device behaviour, camera set
and burst count, the trace is the start events, then the burst-loop events,
then an end-acquisition event for every camera of the set, and the
exception of the burst loop (if any) is surfaced only with the completed
trace: acquisition has been ended on all cameras before it propagates. -/
theorem image_always_ends_acquisition (env : CaptureEnv) (cams : List ℕ)
    (img B : ℕ) :
    (runImage env cams img B).1
      = cams.map Ev.startAcq ++ (burstLoop env img cams B 0).1
        ++ cams.map Ev.endAcq ∧
    (runImage env cams img B).2 = (burstLoop env img cams B 0).2 ∧
    (∀ c, c ∈ cams → Ev.endAcq c ∈ (runImage env cams img B).1) := by
  rcases hb : burstLoop env img cams B 0 with ⟨t, e⟩
  refine ⟨by rw [runImage, hb], by rw [runImage, hb], ?_⟩
  intro c hc
  rw [runImage, hb]
  show Ev.endAcq c ∈ cams.map Ev.startAcq ++ t ++ cams.map Ev.endAcq
  exact List.mem_append.mpr (Or.inr (List.mem_map_of_mem _ hc))

/-- Witness for C7 over the desynchronized behaviour: acquisition on camera
0 is ended within the image trace. -/
theorem image_always_ends_acquisition_witness :
    Ev.endAcq 0 ∈ (runImage envDesync [0, 1] 0 2).1 :=
  (image_always_ends_acquisition envDesync [0, 1] 0 2).2.2 0 (by decide)

/-- C9: acquisition is started on the cameras of the set in the
caller-specified order (the image trace begins with exactly the start
events in set order), and the multi-camera save operation passes the order
range(1, numCams) followed by the primary index 0: the primary is last and
every entry before it is a secondary (nonzero index). -/
theorem multi_image_starts_secondaries_first (env : CaptureEnv) (cams : List ℕ)
    (img B n : ℕ) (h : 1 ≤ n) :
    (runImage env cams img B).1.take cams.length = cams.map Ev.startAcq ∧
    multiImageCamOrder n = pyRange 1 n ++ [0] ∧
    (multiImageCamOrder n).getLast? = some 0 ∧
    (multiImageCamOrder n).length = n ∧
    (multiImageCamOrder n).take (n - 1) = pyRange 1 n ∧
    (∀ c, c ∈ pyRange 1 n → 1 ≤ c) := by
  refine ⟨?_, rfl, List.getLast?_concat _, ?_, ?_, ?_⟩
  · rcases hb : burstLoop env img cams B 0 with ⟨t, e⟩
    rw [runImage, hb]
    show ((cams.map Ev.startAcq ++ t) ++ cams.map Ev.endAcq).take cams.length
      = cams.map Ev.startAcq
    rw [List.append_assoc, ← List.length_map cams Ev.startAcq]
    exact List.take_left _ _
  · rw [multiImageCamOrder, pyRange]
    simp [List.length_range']
    omega
  · rw [multiImageCamOrder, pyRange]
    have ht := List.take_left (List.range' 1 (n - 1)) [0]
    rw [List.length_range'] at ht
    exact ht
  · intro c hc
    rw [pyRange] at hc
    exact (List.mem_range'_1.mp hc).1

/-- Witness for C9 with three cameras: the order is the two secondaries
then the primary. -/
theorem multi_image_starts_secondaries_first_witness :
    multiImageCamOrder 3 = pyRange 1 3 ++ [0] ∧
    (multiImageCamOrder 3).getLast? = some 0 :=
  ⟨(multi_image_starts_secondaries_first envDesync [0, 1] 0 1 3 (by decide)).2.1,
   (multi_image_starts_secondaries_first envDesync [0, 1] 0 1 3 (by decide)).2.2.1⟩

end MultiPySpin
